import Mathlib

/-!
Verification of the configuration versioning subsystem of the c4-genai-suite
repository: the snapshot-based history store, the restore engine, and the
portable-configuration export/import codec, as implemented in
`src/backend/src/domain/database/repositories/configuration-history.repository.ts`,
`src/backend/src/domain/extensions/services/configuration-history.service.ts`,
and the use cases under `src/backend/src/domain/extensions/use-cases/`.

The embedding is shallow: TypeScript entities become Lean structures, the
durable store becomes an explicit `Store` value threaded through operations,
the database transaction with a pessimistic write lock in `createSnapshot`
becomes one atomic state transition, and thrown exceptions become explicit
error results.  JSON value trees and extension argument schemas are closed
inductive types.
-/

namespace C4

mutual

/-- JSON-like value trees: the shape of an extension's `values` map entries
(`Record<string, unknown>` in the source, holding strings, numbers, booleans
and nested objects).  Mutually defined with `JsonFields`, the cons-list of
named fields of an object. -/
inductive JsonValue where
  | str : String → JsonValue
  | num : Int → JsonValue
  | bool : Bool → JsonValue
  | obj : JsonFields → JsonValue

/-- A finite map from field names to JSON values, in insertion order. -/
inductive JsonFields where
  | nil : JsonFields
  | cons : String → JsonValue → JsonFields → JsonFields

end

/-- Look up a field by name (first match), like property access on a JS object. -/
def JsonFields.lookup : JsonFields → String → Option JsonValue
  | .nil, _ => none
  | .cons k v rest, key => if k = key then some v else rest.lookup key

mutual

/-- The declarative argument descriptor of an extension spec
(`ExtensionArgument` in the source interfaces): a type tag, a required flag,
for string arguments an optional `format` tag (the format `password` marks a
secret) and an optional enumeration, for numeric arguments optional inclusive
bounds, and for object arguments a nested mapping of `properties`. -/
inductive ExtensionArgument where
  | str : (required : Bool) → (format : Option String) → (enum : List String) → ExtensionArgument
  | num : (required : Bool) → (minimum : Option Int) → (maximum : Option Int) → ExtensionArgument
  | boolean : (required : Bool) → ExtensionArgument
  | obj : (required : Bool) → (properties : ArgProps) → ExtensionArgument

/-- The `arguments` / `properties` mapping of an extension spec: argument
name to descriptor, in declaration order. -/
inductive ArgProps where
  | nil : ArgProps
  | cons : String → ExtensionArgument → ArgProps → ArgProps

end

/-- Look up an argument descriptor by name. -/
def ArgProps.lookup : ArgProps → String → Option ExtensionArgument
  | .nil, _ => none
  | .cons k a rest, key => if k = key then some a else rest.lookup key

/-- The fixed masking placeholder: twenty asterisks.  The constant appears
in the repository's tests (`export-configuration` test expects
`values.apiKey` to be masked to this exact string) and in the
`import-configuration` test fixtures. -/
def maskPlaceholder : String := "********************"

mutual

/-- Modelled from the spec: `maskKeyValues` lives in
`use-cases/utils.ts`, which is not part of the provided sources; §4.1 of the
design describes it.  `maskValue arg v` masks one value against its
descriptor: a value whose descriptor has format `password` is replaced by the
fixed placeholder regardless of the value's type or length; an object-typed
argument recurses into the value's fields via the `properties` sub-schema; a
value with no descriptor, or a descriptor that is not secret-typed, is left
unchanged. -/
def maskValue (arg : Option ExtensionArgument) (v : JsonValue) : JsonValue :=
  match arg, v with
  | some (.str _ format _), _ =>
      if format = some "password" then .str maskPlaceholder else v
  | some (.obj _ props), .obj fields => .obj (maskFields props fields)
  | _, _ => v

/-- Modelled from the spec: masks every field of a value map against the
argument schema; keys absent from the schema pass through unchanged
(see §4.1). -/
def maskFields (props : ArgProps) : JsonFields → JsonFields
  | .nil => .nil
  | .cons k v rest => .cons k (maskValue (props.lookup k) v) (maskFields props rest)

end

/-- The required flag of an argument descriptor. -/
def ExtensionArgument.requiredFlag : ExtensionArgument → Bool
  | .str r _ _ => r
  | .num r _ _ => r
  | .boolean r => r
  | .obj r _ => r

/-- Lower-bound check for numeric arguments: an absent minimum always passes. -/
def atLeast (minimum : Option Int) (n : Int) : Bool :=
  match minimum with
  | none => true
  | some l => decide (l ≤ n)

/-- Upper-bound check for numeric arguments: an absent maximum always passes. -/
def atMost (maximum : Option Int) (n : Int) : Bool :=
  match maximum with
  | none => true
  | some u => decide (n ≤ u)

/-- Modelled from the spec: a value equal to the masking placeholder is
treated as absent ("still missing") for the purposes of the required check
(§4.2, §4.6 step 3). -/
def presentValue : Option JsonValue → Option JsonValue
  | some (.str s) => if s = maskPlaceholder then none else some (.str s)
  | o => o

mutual

/-- Modelled from the spec: one argument's check inside
`validateConfiguration` (`use-cases/utils.ts`, absent from the provided
sources; §4.2 of the design describes it).  The value's runtime type must
match the descriptor's type tag; numeric values must lie within the declared
inclusive bounds; string values must belong to the declared enumeration when
one is present; object arguments recurse into their `properties`.  The error
message names the offending argument. -/
def validateValue (name : String) (arg : ExtensionArgument) (v : JsonValue) : Except String Unit :=
  match arg, v with
  | .str _ _ enum, .str s =>
      if enum = [] ∨ s ∈ enum then .ok ()
      else .error (name ++ " is not one of the allowed values")
  | .str _ _ _, _ => .error (name ++ " must be a string")
  | .num _ lo hi, .num n =>
      if atLeast lo n && atMost hi n then .ok ()
      else .error (name ++ " is out of range")
  | .num _ _ _, _ => .error (name ++ " must be a number")
  | .boolean _, .bool _ => .ok ()
  | .boolean _, _ => .error (name ++ " must be a boolean")
  | .obj _ props, .obj fields => validateProps props fields
  | .obj _ _, _ => .error (name ++ " must be an object")

/-- Modelled from the spec: walks the argument schema in declaration order;
a required argument whose value is absent (or equal to the masking
placeholder) fails fast; a present value is checked by `validateValue`;
an optional absent argument is skipped (§4.2). -/
def validateProps (props : ArgProps) (fields : JsonFields) : Except String Unit :=
  match props with
  | .nil => .ok ()
  | .cons name arg rest =>
      match presentValue (fields.lookup name) with
      | none =>
          if arg.requiredFlag then .error (name ++ " is required")
          else validateProps rest fields
      | some v =>
          match validateValue name arg v with
          | .error e => .error e
          | .ok _ => validateProps rest fields

end

/-- Modelled from the spec: `validateConfiguration(values, spec)` from
`use-cases/utils.ts` (absent from the provided sources) checks a candidate
value map against an extension spec's argument schema (§4.2). -/
def validateConfiguration (values : JsonFields) (arguments : ArgProps) : Except String Unit :=
  validateProps arguments values

mutual

/-- Modelled from the spec: the value side of `unmaskExtensionValues`
(`use-cases/utils.ts`, absent from the provided sources): masked placeholders
are stripped so that the administrator must re-supply them (§3, §4.6);
nested objects are processed recursively. -/
def unmaskValue : JsonValue → JsonValue
  | .str s => .str s
  | .num n => .num n
  | .bool b => .bool b
  | .obj fields => .obj (unmaskFields fields)

/-- Modelled from the spec: removes every field whose value equals the
masking placeholder, recursing into nested objects. -/
def unmaskFields : JsonFields → JsonFields
  | .nil => .nil
  | .cons k (.str s) rest =>
      if s = maskPlaceholder then unmaskFields rest
      else .cons k (.str s) (unmaskFields rest)
  | .cons k v rest => .cons k (unmaskValue v) (unmaskFields rest)

end

/-- Lifecycle status of a configuration (`ConfigurationStatus` enum:
`enabled | disabled | deleted`; deleted is a soft-delete marker). -/
inductive ConfigurationStatus where
  | enabled
  | disabled
  | deleted
deriving DecidableEq, Repr

/-- One configured extension row attached to a configuration
(`ExtensionEntity`). -/
structure ExtensionEntity where
  id : Nat
  configurationId : Nat
  name : String
  externalId : String
  enabled : Bool
  values : JsonFields
  state : JsonFields
  configurableArguments : Option JsonFields

/-- A configuration row with its child extensions (`ConfigurationEntity`,
with the `userGroups` relation represented by its group ids). -/
structure ConfigurationEntity where
  id : Nat
  name : String
  description : String
  status : ConfigurationStatus
  agentName : Option String
  chatFooter : Option String
  chatSuggestions : List String
  executorEndpoint : Option String
  executorHeaders : Option String
  userGroupIds : List String
  extensions : List ExtensionEntity

/-- The frozen extension payload inside a snapshot (`ExtensionSnapshot`):
`buildSnapshot` fills `state` and `configurableArguments` with `{}` when the
row holds none. -/
structure ExtensionSnapshot where
  externalId : String
  name : String
  enabled : Bool
  values : JsonFields
  state : JsonFields
  configurableArguments : JsonFields

/-- The frozen payload inside a history entry (`ConfigurationSnapshot`). -/
structure ConfigurationSnapshot where
  name : String
  description : String
  status : ConfigurationStatus
  agentName : Option String
  chatFooter : Option String
  chatSuggestions : List String
  executorEndpoint : Option String
  executorHeaders : Option String
  userGroupIds : List String
  extensions : List ExtensionSnapshot

/-- One row of the append-only `configuration_history` table
(`ConfigurationHistoryEntity`); `createdAt` is a logical clock tick. -/
structure ConfigurationHistoryEntity where
  id : Nat
  configurationId : Nat
  version : Nat
  action : String
  changedBy : Option String
  snapshot : ConfigurationSnapshot
  changeComment : Option String
  createdAt : Nat

/-- A registry entry: an extension type's name and declarative argument
schema (`ExtensionSpec`). -/
structure ExtensionSpec where
  name : String
  arguments : ArgProps

/-- The static extension registry served by `ExplorerService`. -/
abbrev Registry := List ExtensionSpec

/-- `ExplorerService.getExtension`: lookup of an extension spec by type name. -/
def getExtension (reg : Registry) (name : String) : Option ExtensionSpec :=
  reg.find? (fun spec => spec.name == name)

/-- The durable store: configuration rows, the append-only history ledger,
the ids of the user groups existing in the system, fresh-id counters for the
three tables, and a logical clock. -/
structure Store where
  configurations : List ConfigurationEntity
  history : List ConfigurationHistoryEntity
  userGroups : List String
  nextConfigurationId : Nat
  nextExtensionId : Nat
  nextHistoryId : Nat
  now : Nat

/-- `findOne({ where: { id } })` on the configurations table. -/
def findConfiguration (s : Store) (cid : Nat) : Option ConfigurationEntity :=
  s.configurations.find? (fun c => c.id == cid)

/-- The versions recorded for a configuration, in creation (append) order. -/
def versionsFor (history : List ConfigurationHistoryEntity) (cid : Nat) : List Nat :=
  (history.filter (fun e => e.configurationId == cid)).map (fun e => e.version)

/-- `COALESCE(MAX(history.version), 0)` over the rows of one configuration,
the quantity read under the pessimistic write lock in
`ConfigurationHistoryRepository.createSnapshot`. -/
def maxVersionFor (history : List ConfigurationHistoryEntity) (cid : Nat) : Nat :=
  (versionsFor history cid).foldr max 0

/-- `ConfigurationHistoryRepository.createSnapshot`: inside one transaction,
reads the configuration's current maximum version under a pessimistic write
lock, computes `next = max + 1`, and inserts the new history row.  The lock
serializes concurrent callers for the same configuration, so the embedding
renders the whole transaction as one atomic state transition. -/
def Store.createSnapshot (s : Store) (cid : Nat) (snap : ConfigurationSnapshot)
    (userId : String) (action : String) (comment : Option String) :
    Store × ConfigurationHistoryEntity :=
  let version := maxVersionFor s.history cid + 1
  let entity : ConfigurationHistoryEntity :=
    { id := s.nextHistoryId
      configurationId := cid
      version := version
      action := action
      changedBy := some userId
      snapshot := snap
      changeComment := comment
      createdAt := s.now }
  ({ s with history := s.history ++ [entity], nextHistoryId := s.nextHistoryId + 1 }, entity)

/-- The masked value map `buildSnapshot` computes for one extension row:
masked through the registry spec when the extension type is registered, left
unmasked when it is not (the documented audit-trail trade-off). -/
def maskedValuesOf (reg : Registry) (ext : ExtensionEntity) : JsonFields :=
  match getExtension reg ext.name with
  | some spec => maskFields spec.arguments ext.values
  | none => ext.values

/-- `ConfigurationHistoryService.buildSnapshot`: freezes the configuration's
scalar fields, group ids and extensions, masking each extension's values via
its registry spec when available. -/
def buildSnapshot (reg : Registry) (configuration : ConfigurationEntity) : ConfigurationSnapshot :=
  { name := configuration.name
    description := configuration.description
    status := configuration.status
    agentName := configuration.agentName
    chatFooter := configuration.chatFooter
    chatSuggestions := configuration.chatSuggestions
    executorEndpoint := configuration.executorEndpoint
    executorHeaders := configuration.executorHeaders
    userGroupIds := configuration.userGroupIds
    extensions := configuration.extensions.map (fun ext =>
      { externalId := ext.externalId
        name := ext.name
        enabled := ext.enabled
        values := maskedValuesOf reg ext
        state := ext.state
        configurableArguments := ext.configurableArguments.getD .nil }) }

/-- Errors surfaced by the domain operations: `NotFoundException`,
`BadRequestException`, and an injected storage failure standing for any
error thrown inside a transaction or write. -/
inductive DomainError where
  | notFound (message : String)
  | badRequest (message : String)
  | databaseFailure
deriving DecidableEq, Repr

/-- `ConfigurationHistoryService.saveSnapshot`: loads the configuration with
its extensions, throws NotFound when it does not exist, then builds and
persists the snapshot. -/
def saveSnapshot (reg : Registry) (s : Store) (cid : Nat) (userId : String)
    (action : String) (comment : Option String) : Except DomainError Store :=
  match findConfiguration s cid with
  | none => .error (.notFound ("Configuration " ++ toString cid ++ " not found"))
  | some configuration =>
      .ok (s.createSnapshot cid (buildSnapshot reg configuration) userId action comment).1

/-- `ConfigurationHistoryRepository.getVersion`: the history row of one
configuration and version, if any. -/
def findVersion (s : Store) (cid : Nat) (version : Nat) : Option ConfigurationHistoryEntity :=
  s.history.find? (fun e => e.configurationId == cid && e.version == version)

/-- Outcome of a state-changing handler: the store that remains durable
after the call (reflecting any transaction rollback) and the error
surfaced to the caller, if any. -/
structure OpOutcome where
  store : Store
  error : Option DomainError

/-- The extension rows `restoreVersion` recreates verbatim from a snapshot's
extension list, bound to the same configuration id, with fresh row
identities. -/
def rebuildExtensions (cid : Nat) (firstId : Nat) :
    List ExtensionSnapshot → List ExtensionEntity
  | [] => []
  | es :: rest =>
      { id := firstId
        configurationId := cid
        name := es.name
        externalId := es.externalId
        enabled := es.enabled
        values := es.values
        state := es.state
        configurableArguments := some es.configurableArguments } :: rebuildExtensions cid (firstId + 1) rest

/-- `ConfigurationHistoryService.restoreVersion`: fetches the target history
entry (NotFound if the version does not exist), saves a pre-restore snapshot
of the current state outside the transaction, then in one transaction loads
the configuration, overwrites its scalar fields from the snapshot, deletes
its extensions and recreates them from the snapshot's extension list, and
commits.  Any error inside the transaction rolls the transaction back and is
rethrown; `transactionFails` injects such a failure just before the commit. -/
def restoreVersion (reg : Registry) (s : Store) (cid : Nat) (version : Nat)
    (userId : String) (transactionFails : Bool) : OpOutcome :=
  match findVersion s cid version with
  | none =>
      ⟨s, some (.notFound ("Version " ++ toString version ++ " not found for configuration "
        ++ toString cid))⟩
  | some historyEntity =>
      match saveSnapshot reg s cid userId "restore"
          (some ("Restoring to version " ++ toString version)) with
      | .error e => ⟨s, some e⟩
      | .ok s1 =>
          match findConfiguration s1 cid with
          | none =>
              ⟨s1, some (.notFound ("Configuration " ++ toString cid ++ " not found"))⟩
          | some configuration =>
              let snap := historyEntity.snapshot
              let restored : ConfigurationEntity :=
                { configuration with
                    name := snap.name
                    description := snap.description
                    agentName := snap.agentName
                    chatFooter := snap.chatFooter
                    chatSuggestions := snap.chatSuggestions
                    executorEndpoint := snap.executorEndpoint
                    executorHeaders := snap.executorHeaders
                    status := snap.status
                    extensions := rebuildExtensions configuration.id s1.nextExtensionId snap.extensions }
              let s2 : Store :=
                { s1 with
                    configurations := s1.configurations.map
                      (fun c => if c.id == cid then restored else c)
                    nextExtensionId := s1.nextExtensionId + snap.extensions.length }
              if transactionFails then ⟨s1, some .databaseFailure⟩ else ⟨s2, none⟩

/-- The partial update payload of `UpdateConfiguration` (each field is
skipped by `assignDefined` when absent). -/
structure UpdateValues where
  agentName : Option String
  chatFooter : Option String
  chatSuggestions : Option (List String)
  enabled : Option Bool
  executorEndpoint : Option String
  executorHeaders : Option String
  name : Option String
  description : Option String
  userGroupIds : Option (List String)

/-- `assignDefined` on one optional column: a supplied value overwrites,
an absent one leaves the stored value in place. -/
def assignOpt (update : Option α) (old : Option α) : Option α :=
  match update with
  | some v => some v
  | none => old

/-- The mutation part of `UpdateConfigurationHandler.execute`: group
resolution, `assignDefined` (the status is always reassigned from the
`enabled` flag), and the save. -/
def updateConfigurationApply (s : Store) (cid : Nat) (entity : ConfigurationEntity)
    (values : UpdateValues) : OpOutcome :=
  let groups := match values.userGroupIds with
    | some gids => s.userGroups.filter (fun g => gids.contains g)
    | none => entity.userGroupIds
  let updated : ConfigurationEntity :=
    { entity with
        agentName := assignOpt values.agentName entity.agentName
        chatFooter := assignOpt values.chatFooter entity.chatFooter
        chatSuggestions := values.chatSuggestions.getD entity.chatSuggestions
        status := if values.enabled.getD false then .enabled else .disabled
        executorEndpoint := assignOpt values.executorEndpoint entity.executorEndpoint
        executorHeaders := assignOpt values.executorHeaders entity.executorHeaders
        name := values.name.getD entity.name
        description := values.description.getD entity.description
        userGroupIds := groups }
  let rows := s.configurations.map (fun c => if c.id == cid then updated else c)
  ⟨{ s with configurations := rows }, none⟩

/-- `UpdateConfigurationHandler.execute`: loads the non-deleted
configuration (NotFound otherwise), saves a pre-update snapshot when a user
id is supplied — the `saveSnapshot` call is awaited with no surrounding
try/catch, so a failed snapshot write (`snapshotWriteFails`) propagates to
the caller before any mutation — then resolves the requested groups,
assigns the defined fields and saves. -/
def updateConfiguration (reg : Registry) (s : Store) (cid : Nat) (values : UpdateValues)
    (userId : Option String) (snapshotWriteFails : Bool) : OpOutcome :=
  match s.configurations.find? (fun c => c.id == cid && !(c.status == .deleted)) with
  | none => ⟨s, some (.notFound "")⟩
  | some entity =>
      match userId with
      | some u =>
          if snapshotWriteFails then ⟨s, some .databaseFailure⟩
          else
            match saveSnapshot reg s cid u "update" (some "Configuration updated") with
            | .error e => ⟨s, some e⟩
            | .ok s1 => updateConfigurationApply s1 cid entity values
      | none => updateConfigurationApply s cid entity values

/-- The extension row with a given row id, searched across all
configurations (`extensions.findOneBy({ id })`). -/
def findExtensionRow (s : Store) (extId : Nat) : Option ExtensionEntity :=
  s.configurations.findSome? (fun c => c.extensions.find? (fun e => e.id == extId))

/-- The delete itself: removes the extension row from its configuration. -/
def deleteExtensionApply (s : Store) (extId : Nat) : OpOutcome :=
  let rows := s.configurations.map
    (fun c => { c with extensions := c.extensions.filter (fun e => !(e.id == extId)) })
  ⟨{ s with configurations := rows }, none⟩

/-- `DeleteExtensionHandler.execute`: loads the extension row (NotFound
otherwise), saves a configuration snapshot when a user id is supplied — the
`saveSnapshot` call is awaited with no surrounding try/catch, so a failed
snapshot write (`snapshotWriteFails`) propagates to the caller before the
delete — then deletes the row. -/
def deleteExtension (reg : Registry) (s : Store) (extId : Nat)
    (userId : Option String) (configurationId : Option Nat)
    (snapshotWriteFails : Bool) : OpOutcome :=
  match findExtensionRow s extId with
  | none => ⟨s, some (.notFound "")⟩
  | some extension =>
      match userId with
      | some u =>
          let cfgId := configurationId.getD extension.configurationId
          if snapshotWriteFails then ⟨s, some .databaseFailure⟩
          else
            match saveSnapshot reg s cfgId u "update"
                (some ("Extension " ++ extension.name ++ " deleted")) with
            | .error e => ⟨s, some e⟩
            | .ok s1 => deleteExtensionApply s1 extId
      | none => deleteExtensionApply s extId

/-- One extension of the portable export document (`ExportedExtension`). -/
structure ExportedExtension where
  name : String
  enabled : Bool
  values : JsonFields
  configurableArguments : Option JsonFields

/-- The portable configuration document produced by export
(`ExportedConfiguration`): format version, export timestamp, origin id, the
configuration's field set and the extension list. -/
structure ExportedConfiguration where
  version : String
  exportedAt : Nat
  originId : Nat
  name : String
  description : String
  enabled : Bool
  agentName : Option String
  chatFooter : Option String
  chatSuggestions : List String
  executorEndpoint : Option String
  executorHeaders : Option String
  userGroupIds : List String
  extensions : List ExportedExtension

/-- `ExportConfigurationHandler.execute`: loads the configuration with its
extensions (NotFound otherwise), masks each extension's values
(`maskKeyValues` applied per extension; `buildConfiguration` from
`use-cases/utils.ts` is absent from the provided sources, so the
masked-through-the-registry-spec behaviour follows §4.1/§4.3 of the design),
stamps the running version and the export time, and emits the document.
The handler returns `enabled: false` unconditionally — its own unit test
asserts `result.enabled` is false for an ENABLED configuration. -/
def exportConfiguration (currentVersion : String) (reg : Registry) (s : Store)
    (cid : Nat) : Except DomainError ExportedConfiguration :=
  match findConfiguration s cid with
  | none => .error (.notFound ("Configuration with id " ++ toString cid ++ " not found"))
  | some configuration =>
      .ok
        { version := currentVersion
          exportedAt := s.now
          originId := configuration.id
          name := configuration.name
          description := configuration.description
          enabled := false
          agentName := configuration.agentName
          chatFooter := configuration.chatFooter
          chatSuggestions := configuration.chatSuggestions
          executorEndpoint := configuration.executorEndpoint
          executorHeaders := configuration.executorHeaders
          userGroupIds := configuration.userGroupIds
          extensions := configuration.extensions.map (fun ext =>
            { name := ext.name
              enabled := ext.enabled
              values := maskedValuesOf reg ext
              configurableArguments := ext.configurableArguments }) }

/-- One extension of an imported document (`ImportedExtension`). -/
structure ImportedExtension where
  name : String
  enabled : Bool
  values : JsonFields
  configurableArguments : Option JsonFields

/-- The imported document (`ImportConfigurationData`): optional format
version and export timestamp, the configuration field set, referenced user
group ids and the extension list. -/
structure ImportConfigurationData where
  version : Option String
  exportedAt : Option Nat
  name : String
  description : String
  enabled : Bool
  agentName : Option String
  chatFooter : Option String
  chatSuggestions : List String
  executorEndpoint : Option String
  executorHeaders : Option String
  userGroupIds : List String
  extensions : List ImportedExtension

/-- Feeding an exported document straight back into import (the document is
shape-compatible; the round trip of §8). -/
def toImportData (doc : ExportedConfiguration) : ImportConfigurationData :=
  { version := some doc.version
    exportedAt := some doc.exportedAt
    name := doc.name
    description := doc.description
    enabled := doc.enabled
    agentName := doc.agentName
    chatFooter := doc.chatFooter
    chatSuggestions := doc.chatSuggestions
    executorEndpoint := doc.executorEndpoint
    executorHeaders := doc.executorHeaders
    userGroupIds := doc.userGroupIds
    extensions := doc.extensions.map (fun e =>
      { name := e.name
        enabled := e.enabled
        values := e.values
        configurableArguments := e.configurableArguments }) }

/-- The extension type names referenced by the document that do not resolve
against the registry, collected exhaustively in document order
(`unavailableExtensions` in `ImportConfigurationHandler.execute`). -/
def unavailableExtensionNames (reg : Registry) (d : ImportConfigurationData) : List String :=
  (d.extensions.filter (fun e => (getExtension reg e.name).isNone)).map (fun e => e.name)

/-- The first extension whose value map fails schema validation, with the
validation message (the per-extension loop of
`ImportConfigurationHandler.execute` fails fast). -/
def firstInvalidExtension (reg : Registry) (d : ImportConfigurationData) :
    Option (String × String) :=
  d.extensions.findSome? (fun e =>
    match getExtension reg e.name with
    | some spec =>
        match validateConfiguration e.values spec.arguments with
        | .error msg => some (e.name, msg)
        | .ok _ => none
    | none => none)

/-- Outcome of an import: the resulting store, the warnings logged, and the
created configuration or the error surfaced. -/
structure ImportOutcome where
  store : Store
  warnings : List String
  result : Except DomainError ConfigurationEntity

/-- The extension rows import creates for the new configuration: fresh row
ids, external id `"` `cid` `-` `name` `"`, and the document's value map
stored as supplied. -/
def importExtensionRows (cid : Nat) (firstId : Nat) :
    List ImportedExtension → List ExtensionEntity
  | [] => []
  | e :: rest =>
      { id := firstId
        configurationId := cid
        name := e.name
        externalId := toString cid ++ "-" ++ e.name
        enabled := e.enabled
        values := e.values
        state := .nil
        configurableArguments := e.configurableArguments } :: importExtensionRows cid (firstId + 1) rest

/-- The user-group resolution phase of `ImportConfigurationHandler.execute`:
documents naming no group ids skip the lookup; when none of the named ids
exist the phase fails with BadRequest; when only some exist it returns the
resolved subset plus a warning naming the missing ids. -/
def resolveImportGroups (s : Store) (d : ImportConfigurationData) :
    Except DomainError (List String × List String) :=
  if d.userGroupIds = [] then .ok ([], [])
  else
    let found := s.userGroups.filter (fun g => d.userGroupIds.contains g)
    if found = [] then
      .error (.badRequest
        "Cannot import configuration: none of the specified user groups exist in this system")
    else if found.length < d.userGroupIds.length then
      let missing := d.userGroupIds.filter (fun i => !(found.contains i))
      .ok (found, ["Some user groups not found during import of \"" ++ d.name
        ++ "\". Missing: " ++ String.intercalate ", " missing
        ++ ". Proceeding with available groups."])
    else .ok (found, [])

/-- `ImportConfigurationHandler.execute` (the handler importing
`ImportConfigurationData`, whose tests live in
`import-configuration.spec.ts`): warns on a format-version mismatch, checks
the availability of every referenced extension type exhaustively and fails
with one BadRequest listing all unresolved names, validates each extension's
values fail-fast, resolves the referenced user groups (failing when none
resolve, warning with the missing ids when only some do), then persists the
new configuration and its extensions and returns it. -/
def importConfiguration (currentVersion : String) (reg : Registry) (s : Store)
    (d : ImportConfigurationData) : ImportOutcome :=
  let versionWarnings :=
    match d.version with
    | some v =>
        if v = currentVersion then []
        else
          ["Importing configuration \"" ++ d.name ++ "\" from version " ++ v
            ++ ", but current version is " ++ currentVersion
            ++ ". Proceeding with import, but compatibility issues may occur."]
    | none => []
  let unavailable := unavailableExtensionNames reg d
  if unavailable = [] then
    match firstInvalidExtension reg d with
    | some (extName, msg) =>
        ⟨s, versionWarnings, .error (.badRequest ("Invalid configuration for extension \""
          ++ extName ++ "\": " ++ msg))⟩
    | none =>
        match resolveImportGroups s d with
        | .error e => ⟨s, versionWarnings, .error e⟩
        | .ok (groups, groupWarnings) =>
            let newId := s.nextConfigurationId
            let newConfiguration : ConfigurationEntity :=
              { id := newId
                name := d.name
                description := d.description
                status := if d.enabled then .enabled else .disabled
                agentName := d.agentName
                chatFooter := d.chatFooter
                chatSuggestions := d.chatSuggestions
                executorEndpoint := d.executorEndpoint
                executorHeaders := d.executorHeaders
                userGroupIds := groups
                extensions := importExtensionRows newId s.nextExtensionId d.extensions }
            ⟨{ s with
                configurations := s.configurations ++ [newConfiguration]
                nextConfigurationId := newId + 1
                nextExtensionId := s.nextExtensionId + d.extensions.length },
              versionWarnings ++ groupWarnings, .ok newConfiguration⟩
  else
    ⟨s, versionWarnings, .error (.badRequest
      ("The following extensions are not available in this system: "
        ++ String.intercalate ", " unavailable))⟩

/-- The per-extension loop of the second `ImportConfigurationHandler`
variant (the one calling `unmaskExtensionValues`): fail-fast availability
check, placeholder stripping, validation of the stripped values, and row
creation storing the stripped map. -/
def buildImportedExtensionsUnmasked (reg : Registry) (cid : Nat) (firstId : Nat) :
    List ImportedExtension → Except DomainError (List ExtensionEntity)
  | [] => .ok []
  | e :: rest =>
      match getExtension reg e.name with
      | none =>
          .error (.badRequest ("Extension \x27" ++ e.name
            ++ "\x27 is not available in this system"))
      | some spec =>
          let unmasked := unmaskFields e.values
          match validateConfiguration unmasked spec.arguments with
          | .error msg =>
              .error (.badRequest ("Invalid configuration for extension \x27" ++ e.name
                ++ "\x27: " ++ msg))
          | .ok _ =>
              match buildImportedExtensionsUnmasked reg cid (firstId + 1) rest with
              | .error err => .error err
              | .ok entities =>
                  .ok ({ id := firstId
                         configurationId := cid
                         name := e.name
                         externalId := ""
                         enabled := e.enabled
                         values := unmasked
                         state := .nil
                         configurableArguments := e.configurableArguments } :: entities)

/-- The second `ImportConfigurationHandler` variant: requires a name,
resolves the referenced user groups with no existence check, then builds the
extension rows through `buildImportedExtensionsUnmasked` (stripping masked
placeholders before validating) and persists the new configuration. -/
def importConfigurationUnmasked (reg : Registry) (s : Store) (d : ImportConfigurationData) :
    Store × Except DomainError ConfigurationEntity :=
  if d.name = "" then (s, .error (.badRequest "Configuration name is required"))
  else
    let groups :=
      if d.userGroupIds = [] then []
      else s.userGroups.filter (fun g => d.userGroupIds.contains g)
    let newId := s.nextConfigurationId
    match buildImportedExtensionsUnmasked reg newId s.nextExtensionId d.extensions with
    | .error err => (s, .error err)
    | .ok rows =>
        let newConfiguration : ConfigurationEntity :=
          { id := newId
            name := d.name
            description := d.description
            status := if d.enabled then .enabled else .disabled
            agentName := d.agentName
            chatFooter := d.chatFooter
            chatSuggestions := d.chatSuggestions
            executorEndpoint := d.executorEndpoint
            executorHeaders := d.executorHeaders
            userGroupIds := groups
            extensions := rows }
        ({ s with
            configurations := s.configurations ++ [newConfiguration]
            nextConfigurationId := newId + 1
            nextExtensionId := s.nextExtensionId + d.extensions.length },
          .ok newConfiguration)

/-- One call to `createSnapshot`: the configuration it targets and the
payload it carries.  A list of requests models any serialization order the
pessimistic write lock can produce for a set of concurrent callers. -/
structure SnapshotRequest where
  configurationId : Nat
  snapshot : ConfigurationSnapshot
  userId : String
  action : String
  comment : Option String

/-- Executes a serialized sequence of `createSnapshot` transactions. -/
def runSnapshots (s : Store) : List SnapshotRequest → Store
  | [] => s
  | r :: rest =>
      runSnapshots (s.createSnapshot r.configurationId r.snapshot r.userId r.action r.comment).1 rest

/-- How many of the requests target one configuration. -/
def countFor (ops : List SnapshotRequest) (cid : Nat) : Nat :=
  (ops.filter (fun r => r.configurationId == cid)).length

/-- The gapless version sequence `1, 2, ..., n`. -/
def uptoVersions (n : Nat) : List Nat := List.range' 1 n

theorem versionsFor_append (h : List ConfigurationHistoryEntity)
    (e : ConfigurationHistoryEntity) (cid : Nat) :
    versionsFor (h ++ [e]) cid
      = versionsFor h cid ++ (if e.configurationId = cid then [e.version] else []) := by
  simp only [versionsFor, List.filter_append, List.map_append]
  congr 1
  by_cases hc : e.configurationId = cid <;> simp [List.filter_cons, hc]

theorem foldr_max_const (l : List Nat) (a : Nat) (h : ∀ x ∈ l, x ≤ a) :
    l.foldr max a = a := by
  induction l with
  | nil => rfl
  | cons x xs ih =>
      simp only [List.foldr_cons]
      rw [ih (fun y hy => h y (List.mem_cons_of_mem _ hy))]
      exact Nat.max_eq_right (h x (List.mem_cons_self _ _))

theorem uptoVersions_foldr_max (n : Nat) : (uptoVersions n).foldr max 0 = n := by
  cases n with
  | zero => rfl
  | succ k =>
      rw [uptoVersions, List.range'_1_concat, List.foldr_append]
      simp only [List.foldr_cons, List.foldr_nil, Nat.max_zero]
      rw [foldr_max_const]
      · omega
      · intro x hx
        have := List.mem_range'_1.mp hx
        omega

theorem maxVersionFor_of_versions (h : List ConfigurationHistoryEntity) (cid k : Nat)
    (hv : versionsFor h cid = uptoVersions k) : maxVersionFor h cid = k := by
  rw [maxVersionFor, hv, uptoVersions_foldr_max]

theorem countFor_cons (r : SnapshotRequest) (rest : List SnapshotRequest) (cid : Nat) :
    countFor (r :: rest) cid
      = (if r.configurationId = cid then 1 else 0) + countFor rest cid := by
  by_cases hc : r.configurationId = cid
  · simp [countFor, List.filter_cons, hc]
    omega
  · simp [countFor, List.filter_cons, hc]

theorem createSnapshot_history (s : Store) (cid : Nat) (snap : ConfigurationSnapshot)
    (userId action : String) (comment : Option String) :
    (s.createSnapshot cid snap userId action comment).1.history
      = s.history ++ [(s.createSnapshot cid snap userId action comment).2] := by
  rfl

theorem runSnapshots_versions (ops : List SnapshotRequest) :
    ∀ (s : Store) (cid k : Nat), versionsFor s.history cid = uptoVersions k →
      versionsFor (runSnapshots s ops).history cid = uptoVersions (k + countFor ops cid) := by
  induction ops with
  | nil =>
      intro s cid k h
      simpa [runSnapshots, countFor] using h
  | cons r rest ih =>
      intro s cid k h
      rw [runSnapshots]
      by_cases hc : r.configurationId = cid
      · have hmax : maxVersionFor s.history cid = k := maxVersionFor_of_versions _ _ _ h
        have hver : versionsFor
            (s.createSnapshot r.configurationId r.snapshot r.userId r.action r.comment).1.history
              cid = uptoVersions (k + 1) := by
          rw [createSnapshot_history, versionsFor_append, h]
          simp only [Store.createSnapshot, hc, hmax, if_pos]
          rw [uptoVersions, uptoVersions, List.range'_1_concat]
          simp [Nat.add_comm]
        have := ih _ cid (k + 1) hver
        rw [this, countFor_cons, if_pos hc]
        congr 1
        omega
      · have hver : versionsFor
            (s.createSnapshot r.configurationId r.snapshot r.userId r.action r.comment).1.history
              cid = uptoVersions k := by
          rw [createSnapshot_history, versionsFor_append, h]
          simp [Store.createSnapshot, hc]
        have := ih _ cid k hver
        rw [this, countFor_cons, if_neg hc, Nat.zero_add]

theorem uptoVersions_nodup (n : Nat) : (uptoVersions n).Nodup := by
  rw [uptoVersions]
  exact List.nodup_range' 1 n

theorem maskFields_lookup (props : ArgProps) :
    (fs : JsonFields) → (k : String) →
      (maskFields props fs).lookup k = (fs.lookup k).map (maskValue (props.lookup k))
  | .nil, _ => rfl
  | .cons k' v rest, k => by
      by_cases hk : k' = k
      · subst hk
        simp [maskFields, JsonFields.lookup]
      · simp [maskFields, JsonFields.lookup, hk, maskFields_lookup props rest k]

theorem maskValue_password (r : Bool) (en : List String) (v : JsonValue) :
    maskValue (some (.str r (some "password") en)) v = .str maskPlaceholder := by
  simp [maskValue]

theorem maskValue_none (v : JsonValue) : maskValue none v = v := by
  cases v <;> rfl

theorem maskValue_nonsecret (arg : ExtensionArgument) (v : JsonValue)
    (hpw : ∀ r en, arg ≠ .str r (some "password") en)
    (hobj : ∀ r ps, arg ≠ .obj r ps) :
    maskValue (some arg) v = v := by
  cases arg with
  | str r f en =>
      by_cases hf : f = some "password"
      · exact absurd (by rw [hf]) (hpw r en)
      · simp [maskValue, hf]
  | num r lo hi => cases v <;> rfl
  | boolean r => cases v <;> rfl
  | obj r ps => exact absurd rfl (hobj r ps)

theorem maskValue_object (r : Bool) (ps : ArgProps) (g : JsonFields) :
    maskValue (some (.obj r ps)) (.obj g) = .obj (maskFields ps g) := rfl

/-- The argument schema of the `rag-tool` example of §8: an optional secret
`apiKey`, a required plain `endpoint`, and a nested object argument holding
a secret `secretKey` and a plain `publicValue` (the nested shape of the test
fixtures of the import handler). -/
def sampleArgs : ArgProps :=
  .cons "apiKey" (.str false (some "password") [])
    (.cons "endpoint" (.str true none [])
      (.cons "nested" (.obj false
        (.cons "secretKey" (.str false (some "password") [])
          (.cons "publicValue" (.str false none []) .nil))) .nil))

/-- A registry holding one extension type, `rag-tool`, with `sampleArgs`. -/
def sampleRegistry : Registry := [{ name := "rag-tool", arguments := sampleArgs }]

/-- The example value map of §8: a real secret, a plain endpoint, and a
nested object mixing a secret with a public value. -/
def sampleValues : JsonFields :=
  .cons "apiKey" (.str "sk-real-123")
    (.cons "endpoint" (.str "https://x")
      (.cons "nested" (.obj (.cons "secretKey" (.str "nested-secret")
        (.cons "publicValue" (.str "public") .nil))) .nil))

/-- A configured `rag-tool` extension row holding `sampleValues`. -/
def sampleExtension : ExtensionEntity :=
  { id := 10
    configurationId := 1
    name := "rag-tool"
    externalId := "1-rag-tool"
    enabled := true
    values := sampleValues
    state := .nil
    configurableArguments := none }

/-- The `Support Bot` configuration of §8, enabled, in group `g1`, with one
extension. -/
def sampleConfiguration : ConfigurationEntity :=
  { id := 1
    name := "Support Bot"
    description := "demo"
    status := .enabled
    agentName := some "Bot"
    chatFooter := none
    chatSuggestions := ["Hello"]
    executorEndpoint := none
    executorHeaders := none
    userGroupIds := ["g1"]
    extensions := [sampleExtension] }

/-- A history entry whose snapshot captured `sampleConfiguration` exactly as
it stands (the configuration's own most recent version). -/
def sampleHistoryEntry : ConfigurationHistoryEntity :=
  { id := 1
    configurationId := 1
    version := 1
    action := "create"
    changedBy := some "admin"
    snapshot := buildSnapshot sampleRegistry sampleConfiguration
    changeComment := none
    createdAt := 0 }

/-- A store holding `sampleConfiguration`, its version-1 snapshot, and the
group `g1`. -/
def sampleStore : Store :=
  { configurations := [sampleConfiguration]
    history := [sampleHistoryEntry]
    userGroups := ["g1"]
    nextConfigurationId := 2
    nextExtensionId := 11
    nextHistoryId := 2
    now := 5 }

/-- A store holding nothing. -/
def emptyStore : Store :=
  { configurations := []
    history := []
    userGroups := []
    nextConfigurationId := 1
    nextExtensionId := 1
    nextHistoryId := 1
    now := 0 }

/-- A minimal snapshot payload for concrete `createSnapshot` runs. -/
def plainSnapshot : ConfigurationSnapshot :=
  { name := "Support Bot"
    description := ""
    status := .enabled
    agentName := none
    chatFooter := none
    chatSuggestions := []
    executorEndpoint := none
    executorHeaders := none
    userGroupIds := []
    extensions := [] }

/-- Three serialized snapshot writes: two target configuration 1 with a
write for configuration 2 interleaved. -/
def sampleRequests : List SnapshotRequest :=
  [ { configurationId := 1, snapshot := plainSnapshot, userId := "admin",
      action := "create", comment := none },
    { configurationId := 2, snapshot := plainSnapshot, userId := "admin",
      action := "create", comment := none },
    { configurationId := 1, snapshot := plainSnapshot, userId := "admin",
      action := "update", comment := none } ]

/-- C3: masking replaces every value whose argument descriptor has format
`password` with the fixed placeholder of constant length 20, independent of
the original value; it recurses into nested object-typed arguments via their
`properties` sub-schema; values with a non-secret descriptor, and keys
absent from the schema, appear unchanged. -/
theorem mask_specification (props : ArgProps) (fs : JsonFields) (k : String) (v : JsonValue) :
    maskPlaceholder.length = 20
    ∧ (∀ r en, props.lookup k = some (.str r (some "password") en) →
        fs.lookup k = some v → (maskFields props fs).lookup k = some (.str maskPlaceholder))
    ∧ (props.lookup k = none → fs.lookup k = some v →
        (maskFields props fs).lookup k = some v)
    ∧ (∀ arg, props.lookup k = some arg →
        (∀ r en, arg ≠ .str r (some "password") en) →
        (∀ r ps, arg ≠ .obj r ps) →
        fs.lookup k = some v → (maskFields props fs).lookup k = some v)
    ∧ (∀ r ps g, props.lookup k = some (.obj r ps) → fs.lookup k = some (.obj g) →
        (maskFields props fs).lookup k = some (.obj (maskFields ps g))) := by
  refine ⟨rfl, ?_, ?_, ?_, ?_⟩
  · intro r en hp hf
    rw [maskFields_lookup, hf, hp, Option.map_some']
    rw [maskValue_password]
  · intro hp hf
    rw [maskFields_lookup, hf, hp, Option.map_some']
    rw [maskValue_none]
  · intro arg hp hpw hobj hf
    rw [maskFields_lookup, hf, hp, Option.map_some']
    rw [maskValue_nonsecret arg v hpw hobj]
  · intro r ps g hp hf
    rw [maskFields_lookup, hf, hp, Option.map_some']
    rfl

/-- Witness for C3 on the §8 example: `apiKey` becomes the placeholder,
`endpoint` and an unknown key survive unchanged, and the nested object is
masked through its `properties` sub-schema. -/
theorem mask_specification_witness :
    maskPlaceholder.length = 20
    ∧ (maskFields sampleArgs sampleValues).lookup "apiKey" = some (.str maskPlaceholder)
    ∧ (maskFields sampleArgs sampleValues).lookup "endpoint" = some (.str "https://x")
    ∧ (maskFields sampleArgs (.cons "legacyKey" (.str "keep") sampleValues)).lookup "legacyKey"
        = some (.str "keep")
    ∧ (maskFields sampleArgs sampleValues).lookup "nested"
        = some (.obj (.cons "secretKey" (.str maskPlaceholder)
            (.cons "publicValue" (.str "public") .nil))) := by
  have h1 := (mask_specification sampleArgs sampleValues "apiKey" (.str "sk-real-123")).2.1
    false [] rfl rfl
  have h2 := (mask_specification sampleArgs sampleValues "endpoint"
    (.str "https://x")).2.2.2.1 (.str true none []) rfl
    (fun r en h => by cases h) (fun r ps h => by cases h) rfl
  have h3 := (mask_specification sampleArgs (.cons "legacyKey" (.str "keep") sampleValues)
    "legacyKey" (.str "keep")).2.2.1 rfl rfl
  have h4 := (mask_specification sampleArgs sampleValues "nested"
    (.obj (.cons "secretKey" (.str "nested-secret")
      (.cons "publicValue" (.str "public") .nil)))).2.2.2.2 false
    (.cons "secretKey" (.str false (some "password") [])
      (.cons "publicValue" (.str false none []) .nil))
    (.cons "secretKey" (.str "nested-secret") (.cons "publicValue" (.str "public") .nil))
    rfl rfl
  exact ⟨(mask_specification sampleArgs sampleValues "apiKey" (.str "sk-real-123")).1,
    h1, h2, h3, h4⟩

/-- C1: starting from a store with no history for a configuration, any
serialized sequence of `createSnapshot` transactions — the serialization any
interleaving of concurrent callers collapses to under the pessimistic write
lock, including writes for other configurations in between — gives that
configuration the gapless version sequence `1, 2, ..., n` in creation order,
with pairwise-distinct versions, so `(configurationId, version)` stays
unique and no two callers receive the same version. -/
theorem createSnapshot_version_sequence (ops : List SnapshotRequest) (s : Store) (cid : Nat)
    (h : versionsFor s.history cid = []) :
    versionsFor (runSnapshots s ops).history cid = uptoVersions (countFor ops cid)
    ∧ (versionsFor (runSnapshots s ops).history cid).Nodup := by
  have hmain := runSnapshots_versions ops s cid 0 h
  rw [Nat.zero_add] at hmain
  exact ⟨hmain, hmain ▸ uptoVersions_nodup _⟩

/-- Witness for C1: two writes for configuration 1 with one for
configuration 2 interleaved yield versions `[1, 2]` for configuration 1. -/
theorem createSnapshot_version_sequence_witness :
    (versionsFor (runSnapshots emptyStore sampleRequests).history 1
      = uptoVersions (countFor sampleRequests 1)
    ∧ (versionsFor (runSnapshots emptyStore sampleRequests).history 1).Nodup)
    ∧ versionsFor (runSnapshots emptyStore sampleRequests).history 1 = [1, 2] :=
  ⟨createSnapshot_version_sequence sampleRequests emptyStore 1 rfl, rfl⟩

/-- The pre-restore safety snapshot row `restoreVersion` appends before its
transaction. -/
def preRestoreEntry (reg : Registry) (s : Store) (cid : Nat) (version : Nat)
    (userId : String) (cfg : ConfigurationEntity) : ConfigurationHistoryEntity :=
  (s.createSnapshot cid (buildSnapshot reg cfg) userId "restore"
    (some ("Restoring to version " ++ toString version))).2

/-- C2: when the target version does not exist, `restoreVersion` surfaces
NotFound with the store untouched — no pre-restore snapshot appended, the
configuration unmodified; and when a failure strikes inside the restore
transaction, the transaction rolls back, leaving every configuration row as
it was before the transaction began, while the pre-restore snapshot written
beforehand stays in the history. -/
theorem restoreVersion_notFound_and_rollback (reg : Registry) (s : Store)
    (cid : Nat) (version : Nat) (userId : String) :
    (findVersion s cid version = none →
      ∀ tf, restoreVersion reg s cid version userId tf
        = ⟨s, some (.notFound ("Version " ++ toString version
            ++ " not found for configuration " ++ toString cid))⟩)
    ∧ (∀ entry cfg, findVersion s cid version = some entry →
        findConfiguration s cid = some cfg →
        (restoreVersion reg s cid version userId true).error = some .databaseFailure
        ∧ (restoreVersion reg s cid version userId true).store.configurations
            = s.configurations
        ∧ (restoreVersion reg s cid version userId true).store.history
            = s.history ++ [preRestoreEntry reg s cid version userId cfg]) := by
  constructor
  · intro hnone tf
    simp [restoreVersion, hnone]
  · intro entry cfg hv hcfg
    have hsave : saveSnapshot reg s cid userId "restore"
        (some ("Restoring to version " ++ toString version))
        = .ok (s.createSnapshot cid (buildSnapshot reg cfg) userId "restore"
            (some ("Restoring to version " ++ toString version))).1 := by
      simp [saveSnapshot, hcfg]
    have hcfg2 : s.configurations.find? (fun c => c.id == cid) = some cfg := hcfg
    refine ⟨?_, ?_, ?_⟩ <;>
      simp [restoreVersion, hv, hsave, hcfg2, findConfiguration, Store.createSnapshot,
        preRestoreEntry]

/-- Witness for C2: on `sampleStore`, restoring to the absent version 99
fails NotFound with the store untouched, and an injected transaction failure
while restoring to version 1 rolls the configuration back but keeps the
pre-restore snapshot. -/
theorem restoreVersion_notFound_and_rollback_witness :
    restoreVersion sampleRegistry sampleStore 1 99 "admin" false
      = ⟨sampleStore, some (.notFound ("Version " ++ toString 99
          ++ " not found for configuration " ++ toString 1))⟩
    ∧ ((restoreVersion sampleRegistry sampleStore 1 1 "admin" true).error
          = some .databaseFailure
      ∧ (restoreVersion sampleRegistry sampleStore 1 1 "admin" true).store.configurations
          = sampleStore.configurations
      ∧ (restoreVersion sampleRegistry sampleStore 1 1 "admin" true).store.history
          = sampleStore.history
              ++ [preRestoreEntry sampleRegistry sampleStore 1 1 "admin" sampleConfiguration]) :=
  ⟨(restoreVersion_notFound_and_rollback sampleRegistry sampleStore 1 99 "admin").1 rfl false,
   (restoreVersion_notFound_and_rollback sampleRegistry sampleStore 1 1 "admin").2
     sampleHistoryEntry sampleConfiguration rfl rfl⟩

/-- The configuration row as `restoreVersion` leaves it: scalar fields
overwritten from the snapshot, extensions rebuilt, id and group
associations untouched. -/
def restoredConfiguration (cfg : ConfigurationEntity) (snap : ConfigurationSnapshot)
    (firstId : Nat) : ConfigurationEntity :=
  { cfg with
      name := snap.name
      description := snap.description
      agentName := snap.agentName
      chatFooter := snap.chatFooter
      chatSuggestions := snap.chatSuggestions
      executorEndpoint := snap.executorEndpoint
      executorHeaders := snap.executorHeaders
      status := snap.status
      extensions := rebuildExtensions cfg.id firstId snap.extensions }

theorem restoreVersion_success (reg : Registry) (s : Store) (cid : Nat) (version : Nat)
    (userId : String) (entry : ConfigurationHistoryEntity) (cfg : ConfigurationEntity)
    (hv : findVersion s cid version = some entry)
    (hcfg : findConfiguration s cid = some cfg) :
    restoreVersion reg s cid version userId false
      = ⟨{ s with
            configurations := s.configurations.map (fun c =>
              if c.id == cid then
                restoredConfiguration cfg entry.snapshot s.nextExtensionId
              else c)
            history := s.history ++ [preRestoreEntry reg s cid version userId cfg]
            nextExtensionId := s.nextExtensionId + entry.snapshot.extensions.length
            nextHistoryId := s.nextHistoryId + 1 },
          none⟩ := by
  have hsave : saveSnapshot reg s cid userId "restore"
      (some ("Restoring to version " ++ toString version))
      = .ok (s.createSnapshot cid (buildSnapshot reg cfg) userId "restore"
          (some ("Restoring to version " ++ toString version))).1 := by
    simp [saveSnapshot, hcfg]
  have hid : cfg.id = cid := by
    have := List.find?_some hcfg
    simpa using this
  have hcfg2 : s.configurations.find? (fun c => c.id == cid) = some cfg := hcfg
  simp [restoreVersion, hv, hsave, hcfg2, findConfiguration, Store.createSnapshot,
    restoredConfiguration, preRestoreEntry, hid]

theorem find?_map_update (l : List ConfigurationEntity) (cid : Nat)
    (cfg restored : ConfigurationEntity)
    (hfind : l.find? (fun c => c.id == cid) = some cfg) (hid : restored.id = cfg.id) :
    (l.map (fun c => if c.id == cid then restored else c)).find? (fun c => c.id == cid)
      = some restored := by
  induction l with
  | nil => simp at hfind
  | cons x xs ih =>
      by_cases hx : x.id = cid
      · rw [List.find?_cons_of_pos _ (by simp [hx])] at hfind
        have hcfgx : x = cfg := by injection hfind
        subst hcfgx
        simp only [List.map_cons, if_pos (by simp [hx] : (x.id == cid) = true)]
        exact List.find?_cons_of_pos _ (by simp [hid, hx])
      · rw [List.find?_cons_of_neg _ (by simp [hx])] at hfind
        simp only [List.map_cons, if_neg (by simp [hx] : ¬(x.id == cid) = true)]
        rw [List.find?_cons_of_neg _ (by simp [hx])]
        exact ih hfind

theorem rebuildExtensions_shape (cid : Nat) :
    (firstId : Nat) → (snaps : List ExtensionSnapshot) →
      (rebuildExtensions cid firstId snaps).map (fun e => (e.name, e.enabled, e.values))
        = snaps.map (fun es => (es.name, es.enabled, es.values))
  | _, [] => rfl
  | firstId, es :: rest => by
      simp [rebuildExtensions, rebuildExtensions_shape cid (firstId + 1) rest]

theorem buildSnapshot_extensions_shape (reg : Registry) (cfg : ConfigurationEntity) :
    (buildSnapshot reg cfg).extensions.map (fun es => (es.name, es.enabled, es.values))
      = cfg.extensions.map (fun e => (e.name, e.enabled, maskedValuesOf reg e)) := by
  simp [buildSnapshot, List.map_map]

/-- C9 counterexample: on `sampleStore`, whose latest history entry (version
1) snapshotted the current state of configuration 1, restoring to version 1
succeeds but appends exactly ONE new history entry — not two — and rewrites
the stored secret `apiKey` from `sk-real-123` to the masking placeholder, so
the extension list is not structurally identical to the previous one. -/
theorem restore_latest_counterexample :
    (restoreVersion sampleRegistry sampleStore 1 1 "admin" false).error = none
    ∧ (restoreVersion sampleRegistry sampleStore 1 1 "admin" false).store.history.length
        = sampleStore.history.length + 1
    ∧ sampleStore.history.length + 1 ≠ sampleStore.history.length + 2
    ∧ ((findConfiguration (restoreVersion sampleRegistry sampleStore 1 1 "admin" false).store
          1).map (fun c => c.extensions.map (fun e => e.values.lookup "apiKey")))
        = some [some (.str maskPlaceholder)]
    ∧ sampleConfiguration.extensions.map (fun e => e.values.lookup "apiKey")
        = [some (.str "sk-real-123")]
    ∧ "sk-real-123" ≠ maskPlaceholder :=
  ⟨rfl, rfl, by decide, rfl, rfl, by decide⟩

/-- C9 (amended): restoring a configuration to a version whose snapshot
captured the current state appends exactly ONE new history entry (the
pre-restore safety snapshot; restore does not snapshot the post-restore
state) and leaves every scalar field unchanged; the resulting extension
list carries the same names and enabled flags, with values equal to the
snapshot's masked values — secret-typed values end up as the fixed
placeholder rather than the original secret — and extension row identities
may differ. -/
theorem restore_latest_version_effects (reg : Registry) (s : Store) (cid : Nat)
    (version : Nat) (userId : String) (entry : ConfigurationHistoryEntity)
    (cfg : ConfigurationEntity)
    (hv : findVersion s cid version = some entry)
    (hcfg : findConfiguration s cid = some cfg)
    (hsnap : entry.snapshot = buildSnapshot reg cfg) :
    ∃ s' cfg', restoreVersion reg s cid version userId false = ⟨s', none⟩
      ∧ s'.history.length = s.history.length + 1
      ∧ findConfiguration s' cid = some cfg'
      ∧ cfg'.name = cfg.name
      ∧ cfg'.description = cfg.description
      ∧ cfg'.status = cfg.status
      ∧ cfg'.agentName = cfg.agentName
      ∧ cfg'.chatFooter = cfg.chatFooter
      ∧ cfg'.chatSuggestions = cfg.chatSuggestions
      ∧ cfg'.executorEndpoint = cfg.executorEndpoint
      ∧ cfg'.executorHeaders = cfg.executorHeaders
      ∧ cfg'.userGroupIds = cfg.userGroupIds
      ∧ cfg'.extensions.map (fun e => (e.name, e.enabled, e.values))
          = cfg.extensions.map (fun e => (e.name, e.enabled, maskedValuesOf reg e)) := by
  have hrun := restoreVersion_success reg s cid version userId entry cfg hv hcfg
  refine ⟨_, restoredConfiguration cfg entry.snapshot s.nextExtensionId, hrun, ?_, ?_, ?_⟩
  · simp
  · show findConfiguration _ cid = _
    simp only [findConfiguration]
    exact find?_map_update s.configurations cid cfg _ hcfg rfl
  · rw [hsnap]
    refine ⟨rfl, rfl, rfl, rfl, rfl, rfl, rfl, rfl, rfl, ?_⟩
    rw [restoredConfiguration]
    show (rebuildExtensions cfg.id s.nextExtensionId (buildSnapshot reg cfg).extensions).map
        (fun e => (e.name, e.enabled, e.values)) = _
    rw [rebuildExtensions_shape, buildSnapshot_extensions_shape]

/-- Witness for C9 (amended) on `sampleStore`: restoring configuration 1 to
its most recent version 1. -/
theorem restore_latest_version_effects_witness :
    ∃ s' cfg', restoreVersion sampleRegistry sampleStore 1 1 "admin" false = ⟨s', none⟩
      ∧ s'.history.length = sampleStore.history.length + 1
      ∧ findConfiguration s' 1 = some cfg'
      ∧ cfg'.name = sampleConfiguration.name
      ∧ cfg'.description = sampleConfiguration.description
      ∧ cfg'.status = sampleConfiguration.status
      ∧ cfg'.agentName = sampleConfiguration.agentName
      ∧ cfg'.chatFooter = sampleConfiguration.chatFooter
      ∧ cfg'.chatSuggestions = sampleConfiguration.chatSuggestions
      ∧ cfg'.executorEndpoint = sampleConfiguration.executorEndpoint
      ∧ cfg'.executorHeaders = sampleConfiguration.executorHeaders
      ∧ cfg'.userGroupIds = sampleConfiguration.userGroupIds
      ∧ cfg'.extensions.map (fun e => (e.name, e.enabled, e.values))
          = sampleConfiguration.extensions.map
              (fun e => (e.name, e.enabled, maskedValuesOf sampleRegistry e)) :=
  restore_latest_version_effects sampleRegistry sampleStore 1 1 "admin"
    sampleHistoryEntry sampleConfiguration rfl rfl rfl

/-- A snapshot differing from the live `sampleConfiguration` in its name and
in its recorded group ids. -/
def staleSnapshot : ConfigurationSnapshot :=
  { buildSnapshot sampleRegistry sampleConfiguration with
      name := "Old Name"
      userGroupIds := ["g2"] }

/-- A version-1 history entry carrying `staleSnapshot`. -/
def staleEntry : ConfigurationHistoryEntity :=
  { sampleHistoryEntry with snapshot := staleSnapshot }

/-- `sampleStore` with `staleEntry` as its only history row and both groups
existing. -/
def staleStore : Store :=
  { sampleStore with history := [staleEntry], userGroups := ["g1", "g2"] }

/-- C10: a successful restore overwrites exactly the scalar fields (name,
description, status, agentName, chatFooter, chatSuggestions,
executorEndpoint, executorHeaders) from the snapshot and replaces the
extension list from the snapshot's extension list, while the configuration's
id and its user-group associations stay what they were before the restore —
even though the snapshot document records `userGroupIds`. -/
theorem restore_leaves_userGroups_unchanged (reg : Registry) (s : Store) (cid : Nat)
    (version : Nat) (userId : String) (entry : ConfigurationHistoryEntity)
    (cfg : ConfigurationEntity)
    (hv : findVersion s cid version = some entry)
    (hcfg : findConfiguration s cid = some cfg) :
    ∃ s' cfg', restoreVersion reg s cid version userId false = ⟨s', none⟩
      ∧ findConfiguration s' cid = some cfg'
      ∧ cfg'.userGroupIds = cfg.userGroupIds
      ∧ cfg'.id = cfg.id
      ∧ cfg'.name = entry.snapshot.name
      ∧ cfg'.description = entry.snapshot.description
      ∧ cfg'.status = entry.snapshot.status
      ∧ cfg'.agentName = entry.snapshot.agentName
      ∧ cfg'.chatFooter = entry.snapshot.chatFooter
      ∧ cfg'.chatSuggestions = entry.snapshot.chatSuggestions
      ∧ cfg'.executorEndpoint = entry.snapshot.executorEndpoint
      ∧ cfg'.executorHeaders = entry.snapshot.executorHeaders
      ∧ cfg'.extensions.map (fun e => (e.name, e.enabled, e.values))
          = entry.snapshot.extensions.map (fun es => (es.name, es.enabled, es.values)) := by
  have hrun := restoreVersion_success reg s cid version userId entry cfg hv hcfg
  refine ⟨_, restoredConfiguration cfg entry.snapshot s.nextExtensionId, hrun, ?_,
    rfl, rfl, rfl, rfl, rfl, rfl, rfl, rfl, rfl, rfl, ?_⟩
  · show findConfiguration _ cid = _
    simp only [findConfiguration]
    exact find?_map_update s.configurations cid cfg _ hcfg rfl
  · rw [restoredConfiguration]
    show (rebuildExtensions cfg.id s.nextExtensionId entry.snapshot.extensions).map
        (fun e => (e.name, e.enabled, e.values)) = _
    rw [rebuildExtensions_shape]

/-- Witness for C10 on `staleStore`: the snapshot records group `g2` and the
name `Old Name`, yet after the restore the configuration keeps its live
group association `g1` while the name is reverted. -/
theorem restore_leaves_userGroups_unchanged_witness :
    (∃ s' cfg', restoreVersion sampleRegistry staleStore 1 1 "admin" false = ⟨s', none⟩
      ∧ findConfiguration s' 1 = some cfg'
      ∧ cfg'.userGroupIds = sampleConfiguration.userGroupIds
      ∧ cfg'.id = sampleConfiguration.id
      ∧ cfg'.name = staleEntry.snapshot.name
      ∧ cfg'.description = staleEntry.snapshot.description
      ∧ cfg'.status = staleEntry.snapshot.status
      ∧ cfg'.agentName = staleEntry.snapshot.agentName
      ∧ cfg'.chatFooter = staleEntry.snapshot.chatFooter
      ∧ cfg'.chatSuggestions = staleEntry.snapshot.chatSuggestions
      ∧ cfg'.executorEndpoint = staleEntry.snapshot.executorEndpoint
      ∧ cfg'.executorHeaders = staleEntry.snapshot.executorHeaders
      ∧ cfg'.extensions.map (fun e => (e.name, e.enabled, e.values))
          = staleEntry.snapshot.extensions.map (fun es => (es.name, es.enabled, es.values)))
    ∧ sampleConfiguration.userGroupIds = ["g1"]
    ∧ staleEntry.snapshot.userGroupIds = ["g2"]
    ∧ staleEntry.snapshot.name = "Old Name" :=
  ⟨restore_leaves_userGroups_unchanged sampleRegistry staleStore 1 1 "admin"
      staleEntry sampleConfiguration rfl rfl, rfl, rfl, rfl⟩

/-- C5: whenever any referenced extension type name fails to resolve against
the registry, the import fails with one BadRequest listing every unresolved
name — collected exhaustively over the whole document before any single
extension's values are validated — and the store is left untouched
(nothing persisted), regardless of how many names are unresolved or of
anything else in the document. -/
theorem import_unavailable_exhaustive (currentVersion : String) (reg : Registry)
    (s : Store) (d : ImportConfigurationData)
    (h : unavailableExtensionNames reg d ≠ []) :
    (importConfiguration currentVersion reg s d).result
      = .error (.badRequest ("The following extensions are not available in this system: "
          ++ String.intercalate ", " (unavailableExtensionNames reg d)))
    ∧ (importConfiguration currentVersion reg s d).store = s := by
  constructor <;> simp [importConfiguration, if_neg h]

/-- Witness for C5: a document referencing the available `rag-tool` and the
two absent types `alpha-tool` and `beta-tool` is rejected with one error
listing both absent names, and the store stays as it was. -/
theorem import_unavailable_exhaustive_witness :
    (importConfiguration "1.0.0" sampleRegistry sampleStore
        { version := none
          exportedAt := none
          name := "Doc"
          description := ""
          enabled := true
          agentName := none
          chatFooter := none
          chatSuggestions := []
          executorEndpoint := none
          executorHeaders := none
          userGroupIds := []
          extensions :=
            [ { name := "alpha-tool", enabled := true, values := .nil,
                configurableArguments := none },
              { name := "rag-tool", enabled := true, values := .nil,
                configurableArguments := none },
              { name := "beta-tool", enabled := true, values := .nil,
                configurableArguments := none } ] }).result
      = .error (.badRequest
          "The following extensions are not available in this system: alpha-tool, beta-tool")
    ∧ (importConfiguration "1.0.0" sampleRegistry sampleStore
        { version := none
          exportedAt := none
          name := "Doc"
          description := ""
          enabled := true
          agentName := none
          chatFooter := none
          chatSuggestions := []
          executorEndpoint := none
          executorHeaders := none
          userGroupIds := []
          extensions :=
            [ { name := "alpha-tool", enabled := true, values := .nil,
                configurableArguments := none },
              { name := "rag-tool", enabled := true, values := .nil,
                configurableArguments := none },
              { name := "beta-tool", enabled := true, values := .nil,
                configurableArguments := none } ] }).store = sampleStore :=
  import_unavailable_exhaustive "1.0.0" sampleRegistry sampleStore _ (by decide)

/-- C7: for a document naming group ids (availability and per-extension
validation passing): when none of the named ids resolve against the current
group set, the import fails entirely with BadRequest and persists nothing;
when some but not all resolve, the import proceeds associating exactly the
resolved subset and logs a warning naming exactly the missing ids. -/
theorem import_group_resolution (currentVersion : String) (reg : Registry) (s : Store)
    (d : ImportConfigurationData)
    (havail : unavailableExtensionNames reg d = [])
    (hvalid : firstInvalidExtension reg d = none)
    (hne : d.userGroupIds ≠ []) :
    (s.userGroups.filter (fun g => d.userGroupIds.contains g) = [] →
      (importConfiguration currentVersion reg s d).result
        = .error (.badRequest
            "Cannot import configuration: none of the specified user groups exist in this system")
      ∧ (importConfiguration currentVersion reg s d).store = s)
    ∧ (∀ found, s.userGroups.filter (fun g => d.userGroupIds.contains g) = found →
        found ≠ [] → found.length < d.userGroupIds.length →
        ∃ cfg, (importConfiguration currentVersion reg s d).result = .ok cfg
          ∧ cfg.userGroupIds = found
          ∧ ("Some user groups not found during import of \"" ++ d.name ++ "\". Missing: "
              ++ String.intercalate ", "
                  (d.userGroupIds.filter (fun i => !(found.contains i)))
              ++ ". Proceeding with available groups.")
              ∈ (importConfiguration currentVersion reg s d).warnings) := by
  constructor
  · intro hfound
    constructor <;>
      · simp only [importConfiguration, resolveImportGroups, havail, hvalid, if_neg hne,
          hfound, eq_self_iff_true, if_true]
        try rfl
  · intro found hfound hfne hlt
    refine ⟨{ id := s.nextConfigurationId
              name := d.name
              description := d.description
              status := if d.enabled then .enabled else .disabled
              agentName := d.agentName
              chatFooter := d.chatFooter
              chatSuggestions := d.chatSuggestions
              executorEndpoint := d.executorEndpoint
              executorHeaders := d.executorHeaders
              userGroupIds := found
              extensions := importExtensionRows s.nextConfigurationId s.nextExtensionId
                d.extensions }, ?_, rfl, ?_⟩ <;>
      simp only [importConfiguration, resolveImportGroups, havail, hvalid, if_neg hne,
        hfound, if_neg hfne, if_pos hlt, eq_self_iff_true, if_true]
    exact List.mem_append_right _ (List.mem_singleton.mpr rfl)

/-- A document naming only the nonexistent group `nope`. -/
def noGroupDoc : ImportConfigurationData :=
  { version := none, exportedAt := none, name := "Doc", description := "",
    enabled := true, agentName := none, chatFooter := none, chatSuggestions := [],
    executorEndpoint := none, executorHeaders := none,
    userGroupIds := ["nope"], extensions := [] }

/-- A document naming the existing group `g1` and the nonexistent
`missing-group`. -/
def partialGroupDoc : ImportConfigurationData :=
  { version := none, exportedAt := none, name := "Doc", description := "",
    enabled := true, agentName := none, chatFooter := none, chatSuggestions := [],
    executorEndpoint := none, executorHeaders := none,
    userGroupIds := ["g1", "missing-group"], extensions := [] }

/-- Witness for C7 on `sampleStore` (whose only group is `g1`): a document
naming just `nope` is rejected, and one naming `g1` and `missing-group`
succeeds attached to `g1` alone, warning about exactly `missing-group`. -/
theorem import_group_resolution_witness :
    ((importConfiguration "1.0.0" sampleRegistry sampleStore noGroupDoc).result
      = .error (.badRequest
          "Cannot import configuration: none of the specified user groups exist in this system")
    ∧ (importConfiguration "1.0.0" sampleRegistry sampleStore noGroupDoc).store = sampleStore)
    ∧ (∃ cfg, (importConfiguration "1.0.0" sampleRegistry sampleStore partialGroupDoc).result
        = .ok cfg
      ∧ cfg.userGroupIds = ["g1"]
      ∧ ("Some user groups not found during import of \"" ++ partialGroupDoc.name
          ++ "\". Missing: "
          ++ String.intercalate ", " (partialGroupDoc.userGroupIds.filter
              (fun i => !(List.contains ["g1"] i)))
          ++ ". Proceeding with available groups.")
          ∈ (importConfiguration "1.0.0" sampleRegistry sampleStore partialGroupDoc).warnings) :=
  ⟨(import_group_resolution "1.0.0" sampleRegistry sampleStore noGroupDoc rfl rfl
      (by decide)).1 rfl,
   (import_group_resolution "1.0.0" sampleRegistry sampleStore partialGroupDoc rfl rfl
      (by decide)).2 ["g1"] rfl (by decide) (by decide)⟩

/-- C4: importing a document whose extension carries the masking placeholder
for a password-format argument and no replacement value: the placeholder is
stripped and so treated as absent for the required check, hence when the
argument is required the import fails with BadRequest naming the extension
and the violated rule, and when it is optional the import succeeds with the
new extension's value map omitting the argument entirely rather than storing
the placeholder. -/
theorem import_masked_secret_required_policy (reg : Registry) (s : Store)
    (d : ImportConfigurationData) (extName argName : String) (req : Bool)
    (hname : ¬(d.name = ""))
    (hexts : d.extensions = [{ name := extName
                               enabled := true
                               values := .cons argName (.str maskPlaceholder) .nil
                               configurableArguments := none }])
    (hreg : getExtension reg extName
        = some { name := extName
                 arguments := .cons argName (.str req (some "password") []) .nil }) :
    (req = true →
      (importConfigurationUnmasked reg s d).2
        = .error (.badRequest ("Invalid configuration for extension \x27" ++ extName
            ++ "\x27: " ++ argName ++ " is required")))
    ∧ (req = false →
      ∃ cfg, (importConfigurationUnmasked reg s d).2 = .ok cfg
        ∧ cfg.extensions.map (fun e => e.values) = [.nil]) := by
  constructor
  · intro hreq
    subst hreq
    simp only [importConfigurationUnmasked, if_neg hname, hexts,
      buildImportedExtensionsUnmasked, hreg, unmaskFields, eq_self_iff_true, if_true,
      validateConfiguration, validateProps, JsonFields.lookup, presentValue,
      ExtensionArgument.requiredFlag, String.append_assoc]
  · intro hreq
    subst hreq
    refine ⟨{ id := s.nextConfigurationId
              name := d.name
              description := d.description
              status := if d.enabled then .enabled else .disabled
              agentName := d.agentName
              chatFooter := d.chatFooter
              chatSuggestions := d.chatSuggestions
              executorEndpoint := d.executorEndpoint
              executorHeaders := d.executorHeaders
              userGroupIds := if d.userGroupIds = [] then []
                else s.userGroups.filter (fun g => d.userGroupIds.contains g)
              extensions := [{ id := s.nextExtensionId
                               configurationId := s.nextConfigurationId
                               name := extName
                               externalId := ""
                               enabled := true
                               values := .nil
                               state := .nil
                               configurableArguments := none }] }, ?_, ?_⟩ <;>
      simp only [importConfigurationUnmasked, if_neg hname, hexts,
        buildImportedExtensionsUnmasked, hreg, unmaskFields, eq_self_iff_true, if_true,
        if_false, validateConfiguration, validateProps, JsonFields.lookup, presentValue,
        ExtensionArgument.requiredFlag, Bool.false_eq_true, List.map_cons, List.map_nil]

/-- A registry whose `rag-tool` declares `apiKey` as a REQUIRED secret. -/
def requiredSecretRegistry : Registry :=
  [{ name := "rag-tool", arguments := .cons "apiKey" (.str true (some "password") []) .nil }]

/-- A registry whose `rag-tool` declares `apiKey` as an OPTIONAL secret. -/
def optionalSecretRegistry : Registry :=
  [{ name := "rag-tool", arguments := .cons "apiKey" (.str false (some "password") []) .nil }]

/-- A document whose `rag-tool` extension carries only the masking
placeholder as `apiKey` — an exported document re-imported unmodified. -/
def maskedSecretDoc : ImportConfigurationData :=
  { version := none, exportedAt := none, name := "Doc", description := "", enabled := true,
    agentName := none, chatFooter := none, chatSuggestions := [], executorEndpoint := none,
    executorHeaders := none, userGroupIds := []
    extensions := [{ name := "rag-tool"
                     enabled := true
                     values := .cons "apiKey" (.str maskPlaceholder) .nil
                     configurableArguments := none }] }

/-- Witness for C4: with `apiKey` required the re-import of the masked
document fails naming `rag-tool` and `apiKey`; with `apiKey` optional
the import succeeds and the stored value map is empty. -/
theorem import_masked_secret_required_policy_witness :
    (importConfigurationUnmasked requiredSecretRegistry emptyStore maskedSecretDoc).2
      = .error (.badRequest
          "Invalid configuration for extension \x27rag-tool\x27: apiKey is required")
    ∧ ∃ cfg, (importConfigurationUnmasked optionalSecretRegistry emptyStore maskedSecretDoc).2
        = .ok cfg
      ∧ cfg.extensions.map (fun e => e.values) = [.nil] :=
  ⟨(import_masked_secret_required_policy requiredSecretRegistry emptyStore maskedSecretDoc
      "rag-tool" "apiKey" true (by decide) rfl rfl).1 rfl,
   (import_masked_secret_required_policy optionalSecretRegistry emptyStore maskedSecretDoc
      "rag-tool" "apiKey" false (by decide) rfl rfl).2 rfl⟩

/-- An update payload renaming the configuration. -/
def renameValues : UpdateValues :=
  { agentName := none, chatFooter := none, chatSuggestions := none, enabled := some true,
    executorEndpoint := none, executorHeaders := none, name := some "Renamed",
    description := none, userGroupIds := none }

/-- C8 evidence: the `saveSnapshot` calls in `UpdateConfigurationHandler`
and `DeleteExtensionHandler` are awaited with no surrounding try/catch, so a
failed snapshot write escalates to the caller and the primary mutation never
happens: with the failure injected, both handlers surface the error and
leave the store untouched; without it, the same update goes through and
renames the configuration. -/
theorem snapshot_failure_blocks_mutation :
    (updateConfiguration sampleRegistry sampleStore 1 renameValues (some "admin") true).error
      = some .databaseFailure
    ∧ (updateConfiguration sampleRegistry sampleStore 1 renameValues (some "admin") true).store
      = sampleStore
    ∧ ((findConfiguration (updateConfiguration sampleRegistry sampleStore 1 renameValues
          (some "admin") true).store 1).map (fun c => c.name)) = some "Support Bot"
    ∧ ((findConfiguration (updateConfiguration sampleRegistry sampleStore 1 renameValues
          (some "admin") false).store 1).map (fun c => c.name)) = some "Renamed"
    ∧ (deleteExtension sampleRegistry sampleStore 10 (some "admin") none true).error
      = some .databaseFailure
    ∧ (deleteExtension sampleRegistry sampleStore 10 (some "admin") none true).store
      = sampleStore
    ∧ ((findConfiguration (deleteExtension sampleRegistry sampleStore 10 (some "admin") none
          true).store 1).map (fun c => c.extensions.length)) = some 1 :=
  ⟨rfl, rfl, rfl, rfl, rfl, rfl, rfl⟩

theorem importExtensionRows_shape (cid : Nat) :
    (firstId : Nat) → (exts : List ImportedExtension) →
      (importExtensionRows cid firstId exts).map (fun e => (e.name, e.enabled, e.values))
        = exts.map (fun e => (e.name, e.enabled, e.values))
  | _, [] => rfl
  | firstId, e :: rest => by
      simp [importExtensionRows, importExtensionRows_shape cid (firstId + 1) rest]

theorem resolveImportGroups_resolved (s : Store) (d : ImportConfigurationData)
    (hg : s.userGroups.filter (fun g => d.userGroupIds.contains g) = d.userGroupIds) :
    resolveImportGroups s d = .ok (d.userGroupIds, []) := by
  by_cases hnil : d.userGroupIds = []
  · simp [resolveImportGroups, hnil]
  · have hlen : ¬(d.userGroupIds.length < d.userGroupIds.length) := by omega
    simp only [resolveImportGroups, if_neg hnil, hg, if_neg hlen]

theorem importConfiguration_result_ok (currentVersion : String) (reg : Registry)
    (s : Store) (d : ImportConfigurationData) (groups : List String) (gw : List String)
    (havail : unavailableExtensionNames reg d = [])
    (hvalid : firstInvalidExtension reg d = none)
    (hgroups : resolveImportGroups s d = .ok (groups, gw)) :
    (importConfiguration currentVersion reg s d).result
      = .ok { id := s.nextConfigurationId
              name := d.name
              description := d.description
              status := if d.enabled then .enabled else .disabled
              agentName := d.agentName
              chatFooter := d.chatFooter
              chatSuggestions := d.chatSuggestions
              executorEndpoint := d.executorEndpoint
              executorHeaders := d.executorHeaders
              userGroupIds := groups
              extensions := importExtensionRows s.nextConfigurationId s.nextExtensionId
                d.extensions } := by
  simp only [importConfiguration, havail, hvalid, hgroups, eq_self_iff_true, if_true]

/-- The document `exportConfiguration "1.0.0"` produces for `sampleStore`'s
configuration 1: `enabled` stamped false, `apiKey` and the nested
`secretKey` masked. -/
def sampleExportDoc : ExportedConfiguration :=
  { version := "1.0.0"
    exportedAt := 5
    originId := 1
    name := "Support Bot"
    description := "demo"
    enabled := false
    agentName := some "Bot"
    chatFooter := none
    chatSuggestions := ["Hello"]
    executorEndpoint := none
    executorHeaders := none
    userGroupIds := ["g1"]
    extensions := [{ name := "rag-tool"
                     enabled := true
                     values := .cons "apiKey" (.str maskPlaceholder)
                       (.cons "endpoint" (.str "https://x")
                         (.cons "nested" (.obj (.cons "secretKey" (.str maskPlaceholder)
                           (.cons "publicValue" (.str "public") .nil))) .nil))
                     configurableArguments := none }] }

/-- C6 counterexample: exporting `sampleStore`'s ENABLED configuration 1 and
immediately importing the resulting document yields a DISABLED
configuration (the export handler stamps `enabled: false`), and the
optional masked secret `apiKey` is present in the imported value map holding
the placeholder — neither absent nor equal to the original secret. -/
theorem roundTrip_counterexample :
    exportConfiguration "1.0.0" sampleRegistry sampleStore 1 = .ok sampleExportDoc
    ∧ sampleConfiguration.status = .enabled
    ∧ ((importConfiguration "1.0.0" sampleRegistry sampleStore
          (toImportData sampleExportDoc)).result.toOption.map
        (fun c => (c.status, c.extensions.map (fun e => e.values.lookup "apiKey"))))
        = some (.disabled, [some (.str maskPlaceholder)])
    ∧ ConfigurationStatus.disabled ≠ ConfigurationStatus.enabled
    ∧ sampleConfiguration.extensions.map (fun e => e.values.lookup "apiKey")
        = [some (.str "sk-real-123")]
    ∧ maskPlaceholder ≠ "sk-real-123" :=
  ⟨rfl, rfl, rfl, by decide, rfl, by decide⟩

/-- C6 (amended): exporting a configuration and immediately importing the
resulting document — when every referenced extension type is available, the
masked values validate, and the referenced group ids all resolve — produces
a new configuration whose name, description, agentName, chatFooter,
chatSuggestions, executorEndpoint, executorHeaders and group associations
equal the original's; the new configuration is always DISABLED because the
export stamps `enabled: false`; and each extension keeps its name and
enabled flag with a value map equal to the original's passed through
masking, so secret fields stay present holding the fixed placeholder. -/
theorem export_import_roundTrip (v : String) (reg : Registry) (s : Store) (cid : Nat)
    (cfg : ConfigurationEntity) (doc : ExportedConfiguration)
    (hcfg : findConfiguration s cid = some cfg)
    (hexp : exportConfiguration v reg s cid = .ok doc)
    (havail : unavailableExtensionNames reg (toImportData doc) = [])
    (hvalid : firstInvalidExtension reg (toImportData doc) = none)
    (hg : s.userGroups.filter (fun g => cfg.userGroupIds.contains g) = cfg.userGroupIds) :
    ∃ cfg', (importConfiguration v reg s (toImportData doc)).result = .ok cfg'
      ∧ cfg'.name = cfg.name
      ∧ cfg'.description = cfg.description
      ∧ cfg'.agentName = cfg.agentName
      ∧ cfg'.chatFooter = cfg.chatFooter
      ∧ cfg'.chatSuggestions = cfg.chatSuggestions
      ∧ cfg'.executorEndpoint = cfg.executorEndpoint
      ∧ cfg'.executorHeaders = cfg.executorHeaders
      ∧ cfg'.userGroupIds = cfg.userGroupIds
      ∧ cfg'.status = .disabled
      ∧ cfg'.extensions.map (fun e => (e.name, e.enabled, e.values))
          = cfg.extensions.map (fun e => (e.name, e.enabled, maskedValuesOf reg e)) := by
  rw [exportConfiguration, hcfg] at hexp
  have hdoc : doc
      = { version := v
          exportedAt := s.now
          originId := cfg.id
          name := cfg.name
          description := cfg.description
          enabled := false
          agentName := cfg.agentName
          chatFooter := cfg.chatFooter
          chatSuggestions := cfg.chatSuggestions
          executorEndpoint := cfg.executorEndpoint
          executorHeaders := cfg.executorHeaders
          userGroupIds := cfg.userGroupIds
          extensions := cfg.extensions.map (fun ext =>
            { name := ext.name
              enabled := ext.enabled
              values := maskedValuesOf reg ext
              configurableArguments := ext.configurableArguments }) } := by
    cases hexp
    rfl
  subst hdoc
  have hgroups : resolveImportGroups s (toImportData
      { version := v
        exportedAt := s.now
        originId := cfg.id
        name := cfg.name
        description := cfg.description
        enabled := false
        agentName := cfg.agentName
        chatFooter := cfg.chatFooter
        chatSuggestions := cfg.chatSuggestions
        executorEndpoint := cfg.executorEndpoint
        executorHeaders := cfg.executorHeaders
        userGroupIds := cfg.userGroupIds
        extensions := cfg.extensions.map (fun ext =>
          { name := ext.name
            enabled := ext.enabled
            values := maskedValuesOf reg ext
            configurableArguments := ext.configurableArguments }) })
      = .ok (cfg.userGroupIds, []) :=
    resolveImportGroups_resolved s _ hg
  have hok := importConfiguration_result_ok v reg s _ cfg.userGroupIds [] havail hvalid hgroups
  refine ⟨_, hok, rfl, rfl, rfl, rfl, rfl, rfl, rfl, rfl, rfl, ?_⟩
  show (importExtensionRows s.nextConfigurationId s.nextExtensionId _).map
      (fun e => (e.name, e.enabled, e.values)) = _
  rw [importExtensionRows_shape]
  simp only [toImportData, List.map_map]
  rfl

/-- Witness for C6 (amended): the round trip of `sampleStore`'s
configuration 1 through `sampleExportDoc`. -/
theorem export_import_roundTrip_witness :
    ∃ cfg', (importConfiguration "1.0.0" sampleRegistry sampleStore
        (toImportData sampleExportDoc)).result = .ok cfg'
      ∧ cfg'.name = sampleConfiguration.name
      ∧ cfg'.description = sampleConfiguration.description
      ∧ cfg'.agentName = sampleConfiguration.agentName
      ∧ cfg'.chatFooter = sampleConfiguration.chatFooter
      ∧ cfg'.chatSuggestions = sampleConfiguration.chatSuggestions
      ∧ cfg'.executorEndpoint = sampleConfiguration.executorEndpoint
      ∧ cfg'.executorHeaders = sampleConfiguration.executorHeaders
      ∧ cfg'.userGroupIds = sampleConfiguration.userGroupIds
      ∧ cfg'.status = .disabled
      ∧ cfg'.extensions.map (fun e => (e.name, e.enabled, e.values))
          = sampleConfiguration.extensions.map
              (fun e => (e.name, e.enabled, maskedValuesOf sampleRegistry e)) :=
  export_import_roundTrip "1.0.0" sampleRegistry sampleStore 1 sampleConfiguration
    sampleExportDoc rfl rfl rfl rfl rfl

end C4
